import Mathlib

/-!
# Ilitek ili8960 LCD driver (drivers/video/backlight/ili8960.c)

A shallow embedding of the driver.  The driver talks to the outside world only
through kernel services (the SPI transport, `mdelay`, the allocator, the lcd
class and sysfs).  Every such call is recorded, oldest first, in a trace of
`Event`s, and whatever a service returns is supplied by an `Env` whose answers
may depend on the whole history so far.  Driver functions are state-passing
functions over the trace and the `struct ili8960` instance.
-/

namespace Ili8960

/-! ## Constants from kernel headers (not part of the driver file) -/

/-- Modelled from the spec: the invalid-argument error number; `errno-base.h`
is not among the sources, the value is the one of the Linux errno table. -/
def EINVAL : Int := 22

/-- Modelled from the spec: the allocation-failure error number; `errno-base.h`
is not among the sources, the value is the one of the Linux errno table. -/
def ENOMEM : Int := 12

/-- Modelled from the spec: the "power on" blanking level of `linux/fb.h`,
which is not among the sources. -/
def FB_BLANK_UNBLANK : Int := 0

/-- Modelled from the spec: the "power off" blanking level of `linux/fb.h`,
which is not among the sources. -/
def FB_BLANK_POWERDOWN : Int := 4

/-- Modelled from the spec: clock/phase mode 3 of `linux/spi/spi.h`
(`SPI_CPOL | SPI_CPHA`), which is not among the sources. -/
def SPI_MODE_3 : Nat := 3

/-- Modelled from the spec: the largest error number an error pointer can
carry (`linux/err.h`, not among the sources). -/
def MAX_ERRNO : Int := 4095

/-- Modelled from the spec: `IS_ERR` of `linux/err.h`; a pointer is read as a
signed machine word and is an error pointer exactly in the last `MAX_ERRNO`
values of the address space. -/
def IS_ERR (p : Int) : Bool := decide (-MAX_ERRNO ≤ p ∧ p < 0)

/-- Modelled from the spec: `PTR_ERR` of `linux/err.h`, the pointer read as a
signed number. -/
def PTR_ERR (p : Int) : Int := p

def ILI8960_REG_BRIGHTNESS : Nat := 0x03
def ILI8960_REG_POWER : Nat := 0x05
def ILI8960_REG_CONTRAST : Nat := 0x0d

/-! ## Data model -/

/-- The instance, `struct ili8960`.  The `spi` back pointer is the one channel
all functions below write to and is left implicit; `bl` is never read nor
written by the driver.  `lcd` is the pointer returned by
`lcd_device_register`, read as a signed machine word. -/
structure ili8960 where
  lcd : Int
  enabled : Bool
  brightness : Nat
  deriving DecidableEq, Repr

/-- Calls into kernel services, and stores into objects owned by them, in the
order the driver performs them. -/
inductive Event where
  | mdelay (ms : Nat)
  | spi_write (buf : List Nat)
  | kmalloc
  | kfree
  | spi_setup (bits_per_word mode : Nat)
  | lcd_device_register
  | lcd_device_unregister
  | lcd_props_max_contrast (v : Nat)
  | device_create_file
  | device_remove_file
  | spi_set_drvdata (set : Bool)
  | dev_err (msg : String)
  deriving DecidableEq, Repr

/-- What the kernel services answer.  Each answer may depend on the history of
events so far (and on the arguments of the call). -/
structure Env where
  /-- Return code of `spi_write`: 0 on success, an error number otherwise. -/
  spi_write : List Event → List Nat → Int
  /-- Result of `kmalloc`: `none` is the null pointer, otherwise the
  (uninitialised) contents of the fresh block. -/
  kmalloc : List Event → Option ili8960
  /-- Return code of `spi_setup`: 0 on success. -/
  spi_setup : List Event → Int
  /-- Pointer returned by `lcd_device_register`, possibly an error pointer. -/
  lcd_device_register : List Event → Int
  /-- Return code of `device_create_file`: 0 on success. -/
  device_create_file : List Event → Int
  /-- Outcome of `strict_strtoul(buf, 0, &res)`: the return code and the value
  left in `res`. -/
  strict_strtoul : String → Int × Nat

/-- An attached device: the instance and the trace so far. -/
structure State where
  dev : ili8960
  trace : List Event
  deriving DecidableEq, Repr

/-- The frames handed to the transport, in order. -/
def writes : List Event → List (List Nat)
  | [] => []
  | Event.spi_write buf :: rest => buf :: writes rest
  | _ :: rest => writes rest

/-- The delays, in order. -/
def delays : List Event → List Nat
  | [] => []
  | Event.mdelay ms :: rest => ms :: delays rest
  | _ :: rest => delays rest

/-! ## Register transport -/

/-- Embedding of `ili8960_write_reg(spi, reg, data)`: both arguments are
`uint8_t`, so are the two bytes of `buf`; the shift and the bitwise or are done
in `int`.  The transfer is one `spi_write` of the two bytes. -/
def ili8960_write_reg (env : Env) (tr : List Event) (reg data : Nat) :
    Int × List Event :=
  let reg := reg % 256
  let data := data % 256
  let buf0 := (((reg &&& 0x40) <<< 1) ||| (reg &&& 0x3f)) % 256
  let buf1 := data
  (env.spi_write tr [buf0, buf1], tr ++ [Event.spi_write [buf0, buf1]])

/-- Embedding of `ili8960_programm_power(spi, enabled)`. -/
def ili8960_programm_power (env : Env) (tr : List Event) (enabled : Bool) :
    Int × List Event :=
  let tr := if enabled then tr ++ [Event.mdelay 20] else tr
  let (ret, tr) := ili8960_write_reg env tr ILI8960_REG_POWER (if enabled then 0xc7 else 0xc6)
  let tr := if !enabled then tr ++ [Event.mdelay 20] else tr
  (ret, tr)

/-! ## lcd operations -/

/-- Embedding of `ili8960_set_power(lcd, power)`. -/
def ili8960_set_power (env : Env) (s : State) (power : Int) : Int × State :=
  let dev : ili8960 :=
    if power = FB_BLANK_UNBLANK then { s.dev with enabled := true }
    else { s.dev with enabled := false }
  let (ret, tr) := ili8960_programm_power env s.trace dev.enabled
  (ret, { dev := dev, trace := tr })

/-- Embedding of `ili8960_get_power(lcd)`. -/
def ili8960_get_power (s : State) : Int × State :=
  (if s.dev.enabled then FB_BLANK_UNBLANK else FB_BLANK_POWERDOWN, s)

/-- Embedding of `ili8960_set_contrast(lcd, contrast)`: the `int` argument is
converted to `uint8_t` at the call of `ili8960_write_reg`. -/
def ili8960_set_contrast (env : Env) (s : State) (contrast : Int) : Int × State :=
  let (ret, tr) := ili8960_write_reg env s.trace ILI8960_REG_CONTRAST (contrast % 256).toNat
  (ret, { s with trace := tr })

/-- Embedding of `ili8960_set_mode(lcd, mode)`; of `mode` only `xres` and
`yres` are read. -/
def ili8960_set_mode (xres yres : Nat) : Int :=
  if xres ≠ 320 ∧ yres ≠ 240 then -EINVAL else 0

/-! ## Brightness and its attribute -/

/-- Embedding of `ili8960_set_brightness(ili8960, brightness)`: the `int`
argument is converted to `uint8_t` for the write and to `unsigned int` for the
field, which is assigned only when the write returned 0. -/
def ili8960_set_brightness (env : Env) (s : State) (brightness : Int) : Int × State :=
  let (ret, tr) := ili8960_write_reg env s.trace ILI8960_REG_BRIGHTNESS (brightness % 256).toNat
  let dev : ili8960 :=
    if ret = 0 then { s.dev with brightness := (brightness % 2 ^ 32).toNat } else s.dev
  (ret, { dev := dev, trace := tr })

/-- Embedding of `ili8960_show_brightness(dev, attr, buf)`: the number of
characters `sprintf` returns, the text it leaves in `buf` (the field in
decimal and a newline), and the state. -/
def ili8960_show_brightness (s : State) : Int × String × State :=
  let text := Nat.repr s.dev.brightness ++ "\n"
  ((text.length : Int), text, s)

/-- Conversion of a `size_t` to `ssize_t` on the 32-bit target of this tree
(two's complement wrap-around). -/
def to_ssize_t (n : Nat) : Int :=
  if n % 2 ^ 32 < 2 ^ 31 then ((n % 2 ^ 32 : Nat) : Int) else ((n % 2 ^ 32 : Nat) : Int) - 2 ^ 32

/-- Embedding of `ili8960_store_brightness(dev, attr, buf, count)`.  The return
code of `strict_strtoul` is assigned to `ret` (a name the function does not
declare) and never read; the result of `ili8960_set_brightness` is discarded;
`count` is returned as `ssize_t`. -/
def ili8960_store_brightness (env : Env) (s : State) (buf : String) (count : Nat) :
    Int × State :=
  let (_ret, brightness) := env.strict_strtoul buf
  if brightness > 255 then (-EINVAL, s)
  else
    let (_, s) := ili8960_set_brightness env s (brightness : Int)
    (to_ssize_t count, s)

/-! ## Bus driver callbacks -/

/-- Outcome of `ili8960_probe`: the return code, the trace, and the instance
registered as driver data (none when the probe failed and freed it). -/
structure ProbeResult where
  ret : Int
  trace : List Event
  drvdata : Option ili8960
  deriving DecidableEq, Repr

/-- Embedding of `ili8960_probe(spi)`.  The return codes of
`ili8960_programm_power` and of the write to register 0x13 are discarded. -/
def ili8960_probe (env : Env) (tr : List Event) : ProbeResult :=
  match env.kmalloc tr with
  | none => { ret := -ENOMEM, trace := tr ++ [Event.kmalloc], drvdata := none }
  | some fresh =>
    let tr := tr ++ [Event.kmalloc]
    let ret := env.spi_setup tr
    let tr := tr ++ [Event.spi_setup 8 SPI_MODE_3]
    if ret ≠ 0 then
      { ret := ret
        trace := tr ++ [Event.dev_err "Failed to setup spi", Event.kfree]
        drvdata := none }
    else
      let lcd := env.lcd_device_register tr
      let tr := tr ++ [Event.lcd_device_register]
      if IS_ERR lcd then
        { ret := PTR_ERR lcd
          trace := tr ++ [Event.dev_err "Failed to register lcd device", Event.kfree]
          drvdata := none }
      else
        let tr := tr ++ [Event.lcd_props_max_contrast 255]
        let ret := env.device_create_file tr
        let tr := tr ++ [Event.device_create_file]
        if ret ≠ 0 then
          { ret := ret
            trace := tr ++ [Event.lcd_device_unregister, Event.kfree]
            drvdata := none }
        else
          let (_, tr) := ili8960_programm_power env tr true
          let dev : ili8960 := { fresh with lcd := lcd, enabled := true }
          let tr := tr ++ [Event.spi_set_drvdata true]
          let (_, tr) := ili8960_write_reg env tr 0x13 0x01
          { ret := 0, trace := tr, drvdata := some dev }

/-- Embedding of `ili8960_remove(spi)`, on the instance `s.dev` found in the
driver data; the instance is gone afterwards, only the trace is returned. -/
def ili8960_remove (s : State) : Int × List Event :=
  (0, s.trace ++ [Event.device_remove_file, Event.lcd_device_unregister,
        Event.spi_set_drvdata false, Event.kfree])

/-- Embedding of `ili8960_suspend(spi, state)` (built under `CONFIG_PM`); the
return code of `ili8960_programm_power` is discarded. -/
def ili8960_suspend (env : Env) (s : State) : Int × State :=
  if s.dev.enabled then
    let (_, tr) := ili8960_programm_power env s.trace false
    (0, { s with trace := tr })
  else (0, s)

/-- Embedding of `ili8960_resume(spi)` (built under `CONFIG_PM`); the return
code of `ili8960_programm_power` is discarded. -/
def ili8960_resume (env : Env) (s : State) : Int × State :=
  if s.dev.enabled then
    let (_, tr) := ili8960_programm_power env s.trace true
    (0, { s with trace := tr })
  else (0, s)

/-! ## Concrete environments used by the examples below -/

/-- Every service succeeds; the fresh block holds brightness 0, and the
parser leaves 300 for every text. -/
def envOk : Env where
  spi_write := fun _ _ => 0
  kmalloc := fun _ => some { lcd := 0, enabled := false, brightness := 0 }
  spi_setup := fun _ => 0
  lcd_device_register := fun _ => 0x1000
  device_create_file := fun _ => 0
  strict_strtoul := fun _ => (0, 300)

/-- Like `envOk`, but every transfer fails with the I/O error number (-5). -/
def envSpiFail : Env := { envOk with spi_write := fun _ _ => -5 }

/-- Like `envOk`, but creating the attribute file fails with `-ENOMEM`. -/
def envFileFail : Env := { envOk with device_create_file := fun _ => -ENOMEM }

/-- A powered instance with cached brightness 7 and an empty history. -/
def sOn : State := { dev := { lcd := 0x1000, enabled := true, brightness := 7 }, trace := [] }

/-- An instance that is off, with cached brightness 7 and an empty history. -/
def sOff : State := { dev := { lcd := 0x1000, enabled := false, brightness := 7 }, trace := [] }

/-! ## Helper lemmas -/

theorem writes_append (xs ys : List Event) : writes (xs ++ ys) = writes xs ++ writes ys := by
  induction xs with
  | nil => rfl
  | cons e rest ih => cases e <;> simp [writes, ih]

theorem delays_append (xs ys : List Event) : delays (xs ++ ys) = delays xs ++ delays ys := by
  induction xs with
  | nil => rfl
  | cons e rest ih => cases e <;> simp [delays, ih]

/-- The address byte of a frame, for a seven-bit register address. -/
theorem addr_byte (a : Nat) (ha : a ≤ 0x7f) :
    (((a % 256 &&& 0x40) <<< 1) ||| (a % 256 &&& 0x3f)) % 256
        = ((a &&& 0x40) <<< 1) ||| (a &&& 0x3f)
      ∧ (((a &&& 0x40) <<< 1) ||| (a &&& 0x3f)).testBit 7 = a.testBit 6
      ∧ (((a &&& 0x40) <<< 1) ||| (a &&& 0x3f)).testBit 6 = false
      ∧ (((a &&& 0x40) <<< 1) ||| (a &&& 0x3f)) % 64 = a % 64 := by
  have h : a < 128 := by omega
  clear ha
  revert a
  decide

/-- What a register write does, for byte-sized arguments. -/
theorem write_reg_eq (env : Env) (tr : List Event) (reg data : Nat) :
    ili8960_write_reg env tr reg data
      = (env.spi_write tr
            [(((reg % 256 &&& 0x40) <<< 1) ||| (reg % 256 &&& 0x3f)) % 256, data % 256],
         tr ++ [Event.spi_write
            [(((reg % 256 &&& 0x40) <<< 1) ||| (reg % 256 &&& 0x3f)) % 256, data % 256]]) :=
  rfl

/-- The power-on sequence: the settle delay, then the frame (0x05, 0xc7). -/
theorem programm_power_on (env : Env) (tr : List Event) :
    ili8960_programm_power env tr true
      = (env.spi_write (tr ++ [Event.mdelay 20]) [0x05, 0xc7],
         tr ++ [Event.mdelay 20, Event.spi_write [0x05, 0xc7]]) := by
  have hb : ((5 &&& 64) <<< 1 ||| 5 &&& 63) % 256 = 5 := by decide
  simp [ili8960_programm_power, write_reg_eq, ILI8960_REG_POWER, hb]

/-- The power-off sequence: the frame (0x05, 0xc6), then the settle delay. -/
theorem programm_power_off (env : Env) (tr : List Event) :
    ili8960_programm_power env tr false
      = (env.spi_write tr [0x05, 0xc6],
         tr ++ [Event.spi_write [0x05, 0xc6], Event.mdelay 20]) := by
  have hb : ((5 &&& 64) <<< 1 ||| 5 &&& 63) % 256 = 5 := by decide
  simp [ili8960_programm_power, write_reg_eq, ILI8960_REG_POWER, hb]

/-- A brightness write of a byte-sized level sends the frame (0x03, level). -/
theorem brightness_write (env : Env) (tr : List Event) (level : Nat) (h : level ≤ 255) :
    ili8960_write_reg env tr ILI8960_REG_BRIGHTNESS (((level : Int) % 256).toNat)
      = (env.spi_write tr [0x03, level], tr ++ [Event.spi_write [0x03, level]]) := by
  have h1 : (((level : Int) % 256).toNat) = level := by omega
  have h2 : level % 256 = level := Nat.mod_eq_of_lt (by omega)
  rw [h1, write_reg_eq, h2]
  rfl

/-- What `ili8960_set_brightness` does with a byte-sized level. -/
theorem set_brightness_eq (env : Env) (s : State) (level : Nat) (h : level ≤ 255) :
    ili8960_set_brightness env s (level : Int)
      = (env.spi_write s.trace [0x03, level],
         { dev := if env.spi_write s.trace [0x03, level] = 0
                  then { s.dev with brightness := level } else s.dev,
           trace := s.trace ++ [Event.spi_write [0x03, level]] }) := by
  have h3 : (((level : Int) % 2 ^ 32).toNat) = level := by omega
  simp only [ili8960_set_brightness, brightness_write env s.trace level h, h3]

/-- An error pointer carries a non-zero error number. -/
theorem ptr_err_ne_zero (p : Int) (h : IS_ERR p = true) : PTR_ERR p ≠ 0 := by
  simp only [IS_ERR, decide_eq_true_eq] at h
  simp only [PTR_ERR]
  omega

/-- The probe when allocation, channel setup, lcd registration and attribute
creation all succeed: whatever the transport answers, the result is success. -/
theorem probe_success (env : Env) (tr : List Event) (fresh : ili8960)
    (hk : env.kmalloc tr = some fresh)
    (hs : env.spi_setup (tr ++ [Event.kmalloc]) = 0)
    (hl : IS_ERR (env.lcd_device_register
            (tr ++ [Event.kmalloc, Event.spi_setup 8 SPI_MODE_3])) = false)
    (hf : env.device_create_file
            (tr ++ [Event.kmalloc, Event.spi_setup 8 SPI_MODE_3, Event.lcd_device_register,
                    Event.lcd_props_max_contrast 255]) = 0) :
    ili8960_probe env tr
      = { ret := 0
          trace := tr ++ [Event.kmalloc, Event.spi_setup 8 SPI_MODE_3,
                    Event.lcd_device_register, Event.lcd_props_max_contrast 255,
                    Event.device_create_file, Event.mdelay 20, Event.spi_write [0x05, 0xc7],
                    Event.spi_set_drvdata true, Event.spi_write [0x13, 0x01]]
          drvdata := some
            { lcd := env.lcd_device_register
                (tr ++ [Event.kmalloc, Event.spi_setup 8 SPI_MODE_3])
              enabled := true
              brightness := fresh.brightness } } := by
  have hb : ((19 &&& 64) <<< 1 ||| 19 &&& 63) % 256 = 19 := by decide
  simp [ili8960_probe, hk, hs, hl, hf, programm_power_on, write_reg_eq, hb]

/-- The probe either succeeds with the full attach sequence, or returns a
non-zero code having issued neither a write nor a delay. -/
theorem probe_cases (env : Env) (tr : List Event) :
    ((env.kmalloc tr).isSome = true
        ∧ env.spi_setup (tr ++ [Event.kmalloc]) = 0
        ∧ IS_ERR (env.lcd_device_register
            (tr ++ [Event.kmalloc, Event.spi_setup 8 SPI_MODE_3])) = false
        ∧ env.device_create_file
            (tr ++ [Event.kmalloc, Event.spi_setup 8 SPI_MODE_3, Event.lcd_device_register,
                    Event.lcd_props_max_contrast 255]) = 0
        ∧ (ili8960_probe env tr).ret = 0
        ∧ (ili8960_probe env tr).trace
            = tr ++ [Event.kmalloc, Event.spi_setup 8 SPI_MODE_3,
                Event.lcd_device_register, Event.lcd_props_max_contrast 255,
                Event.device_create_file, Event.mdelay 20, Event.spi_write [0x05, 0xc7],
                Event.spi_set_drvdata true, Event.spi_write [0x13, 0x01]])
      ∨ (¬ ((env.kmalloc tr).isSome = true
            ∧ env.spi_setup (tr ++ [Event.kmalloc]) = 0
            ∧ IS_ERR (env.lcd_device_register
                (tr ++ [Event.kmalloc, Event.spi_setup 8 SPI_MODE_3])) = false
            ∧ env.device_create_file
                (tr ++ [Event.kmalloc, Event.spi_setup 8 SPI_MODE_3,
                        Event.lcd_device_register, Event.lcd_props_max_contrast 255]) = 0)
        ∧ (ili8960_probe env tr).ret ≠ 0
        ∧ ∃ added, (ili8960_probe env tr).trace = tr ++ added
            ∧ writes added = [] ∧ delays added = []) := by
  cases hk : env.kmalloc tr with
  | none =>
    right
    refine ⟨by simp, by simp [ili8960_probe, hk, ENOMEM], [Event.kmalloc], ?_, rfl, rfl⟩
    simp [ili8960_probe, hk]
  | some fresh =>
    by_cases hs : env.spi_setup (tr ++ [Event.kmalloc]) = 0
    · cases hl : IS_ERR (env.lcd_device_register
          (tr ++ [Event.kmalloc, Event.spi_setup 8 SPI_MODE_3]))
      · by_cases hf : env.device_create_file
            (tr ++ [Event.kmalloc, Event.spi_setup 8 SPI_MODE_3, Event.lcd_device_register,
                    Event.lcd_props_max_contrast 255]) = 0
        · left
          rw [probe_success env tr fresh hk hs hl hf]
          exact ⟨rfl, hs, rfl, hf, rfl, rfl⟩
        · right
          refine ⟨fun h => hf h.2.2.2, ?_,
            [Event.kmalloc, Event.spi_setup 8 SPI_MODE_3, Event.lcd_device_register,
             Event.lcd_props_max_contrast 255, Event.device_create_file,
             Event.lcd_device_unregister, Event.kfree], ?_, rfl, rfl⟩
          · simp [ili8960_probe, hk, hs, hl, hf]
          · simp [ili8960_probe, hk, hs, hl, hf]
      · right
        have hne := ptr_err_ne_zero _ hl
        refine ⟨fun h => by simp at h, ?_,
          [Event.kmalloc, Event.spi_setup 8 SPI_MODE_3, Event.lcd_device_register,
           Event.dev_err "Failed to register lcd device", Event.kfree], ?_, rfl, rfl⟩
        · simpa [ili8960_probe, hk, hs, hl] using hne
        · simp [ili8960_probe, hk, hs, hl]
    · right
      refine ⟨fun h => hs h.2.1, ?_,
        [Event.kmalloc, Event.spi_setup 8 SPI_MODE_3,
         Event.dev_err "Failed to setup spi", Event.kfree], ?_, rfl, rfl⟩
      · simp [ili8960_probe, hk, hs]
      · simp [ili8960_probe, hk, hs]

/-! ## Register transport: frame encoding -/

/-- C1: for a register address `a` in [0, 0x7f] and a value `v` in [0, 255],
`ili8960_write_reg` hands the transport exactly one frame of two bytes (the
only event it adds, and the buffer the return code is asked for); its first
byte is `((a & 0x40) << 1) | (a & 0x3f)`, that is bit 6 of `a` in bit 7, bit 6
clear and the low six bits of `a` in bits 0-5, and its second byte is `v`. -/
theorem write_reg_frame (env : Env) (tr : List Event) (a v : Nat)
    (ha : a ≤ 0x7f) (hv : v ≤ 255) :
    ∃ b0 : Nat,
      ili8960_write_reg env tr a v
          = (env.spi_write tr [b0, v], tr ++ [Event.spi_write [b0, v]])
        ∧ b0 = ((a &&& 0x40) <<< 1) ||| (a &&& 0x3f)
        ∧ b0.testBit 7 = a.testBit 6
        ∧ b0.testBit 6 = false
        ∧ b0 % 64 = a % 64 := by
  obtain ⟨h0, h7, h6, hlow⟩ := addr_byte a ha
  have hv' : v % 256 = v := Nat.mod_eq_of_lt (by omega)
  refine ⟨((a &&& 0x40) <<< 1) ||| (a &&& 0x3f), ?_, rfl, h7, h6, hlow⟩
  rw [write_reg_eq, h0, hv']

theorem write_reg_frame_witness :
    ∃ b0 : Nat,
      ili8960_write_reg envOk [] 0x53 0xa5
          = (envOk.spi_write [] [b0, 0xa5], [] ++ [Event.spi_write [b0, 0xa5]])
        ∧ b0 = ((0x53 &&& 0x40) <<< 1) ||| (0x53 &&& 0x3f)
        ∧ b0.testBit 7 = (0x53 : Nat).testBit 6
        ∧ b0.testBit 6 = false
        ∧ b0 % 64 = 0x53 % 64 :=
  write_reg_frame envOk [] 0x53 0xa5 (by decide) (by decide)

/-! ## Power -/

/-- C2: for every device state and every transport, `ili8960_set_power` adds
exactly two events with exactly one register write, to the power register
0x05: the delay of 20 and then the frame (0x05, 0xc7) when the request is
`FB_BLANK_UNBLANK`, the frame (0x05, 0xc6) and then the delay of 20 otherwise.
The return code is whatever the transport answers for that frame, and the
events are the same whether that answer is a success or an error. -/
theorem set_power_events (env : Env) (s : State) (power : Int) :
    (ili8960_set_power env s power).2.trace
        = s.trace ++ (if power = FB_BLANK_UNBLANK
            then [Event.mdelay 20, Event.spi_write [0x05, 0xc7]]
            else [Event.spi_write [0x05, 0xc6], Event.mdelay 20])
      ∧ (ili8960_set_power env s power).1
        = (if power = FB_BLANK_UNBLANK
            then env.spi_write (s.trace ++ [Event.mdelay 20]) [0x05, 0xc7]
            else env.spi_write s.trace [0x05, 0xc6]) := by
  by_cases h : power = FB_BLANK_UNBLANK
  · simp [ili8960_set_power, h, programm_power_on]
  · simp [ili8960_set_power, h, programm_power_off]

/-- C6: for every device state, every requested power value and every
transport outcome, after `ili8960_set_power` the cached flag is on exactly
when the request was `FB_BLANK_UNBLANK`, and a following `ili8960_get_power`
reports `FB_BLANK_UNBLANK` exactly in that case (and `FB_BLANK_POWERDOWN`
otherwise); `ili8960_set_power` keeps the cached brightness, and
`ili8960_get_power` returns every state as it found it (no write, no delay,
no field changed). -/
theorem set_power_caches_request (env : Env) (s t : State) (power : Int) :
    (ili8960_set_power env s power).2.dev.enabled = decide (power = FB_BLANK_UNBLANK)
      ∧ (ili8960_get_power (ili8960_set_power env s power).2).1
          = (if power = FB_BLANK_UNBLANK then FB_BLANK_UNBLANK else FB_BLANK_POWERDOWN)
      ∧ ((ili8960_get_power (ili8960_set_power env s power).2).1 = FB_BLANK_UNBLANK
          ↔ power = FB_BLANK_UNBLANK)
      ∧ (ili8960_set_power env s power).2.dev.brightness = s.dev.brightness
      ∧ (ili8960_get_power t).2 = t := by
  by_cases h : power = FB_BLANK_UNBLANK
  · simp [ili8960_set_power, ili8960_get_power, h, programm_power_on]
  · have h0 : ¬ power = 0 := h
    simp [ili8960_set_power, ili8960_get_power, h0, programm_power_off,
      FB_BLANK_UNBLANK, FB_BLANK_POWERDOWN]

/-! ## Mode check -/

/-- C4: `ili8960_set_mode` returns `-EINVAL` if and only if the width differs
from 320 and the height differs from 240, both at once; in every other case it
returns 0.  So 320x240, 320x100 and 500x240 are accepted and 100x100 is
refused. -/
theorem set_mode_rejects_iff (xres yres : Nat) :
    (ili8960_set_mode xres yres = -EINVAL ↔ (xres ≠ 320 ∧ yres ≠ 240))
      ∧ (ili8960_set_mode xres yres = 0 ↔ ¬ (xres ≠ 320 ∧ yres ≠ 240))
      ∧ ili8960_set_mode 320 240 = 0
      ∧ ili8960_set_mode 320 100 = 0
      ∧ ili8960_set_mode 500 240 = 0
      ∧ ili8960_set_mode 100 100 = -EINVAL := by
  refine ⟨?_, ?_, by decide, by decide, by decide, by decide⟩
  · by_cases h : xres ≠ 320 ∧ yres ≠ 240
    · simp [ili8960_set_mode, h]
    · simp [ili8960_set_mode, h, EINVAL]
  · by_cases h : xres ≠ 320 ∧ yres ≠ 240
    · simp [ili8960_set_mode, h, EINVAL]
    · simp [ili8960_set_mode, h]

/-! ## Brightness -/

/-- C3: for every device state and every level in [0, 255],
`ili8960_set_brightness` sends exactly one frame, (0x03, level), and returns
the transport's answer.  When that answer is 0 the cached brightness becomes
the level and a following read of the attribute shows the level; when it is an
error the instance is unchanged and a following read shows the old value. -/
theorem set_brightness_then_show (env : Env) (s : State) (level : Nat) (h : level ≤ 255) :
    (ili8960_set_brightness env s level).2.trace
        = s.trace ++ [Event.spi_write [0x03, level]]
      ∧ (ili8960_set_brightness env s level).1 = env.spi_write s.trace [0x03, level]
      ∧ (env.spi_write s.trace [0x03, level] = 0 →
          (ili8960_set_brightness env s level).1 = 0
          ∧ (ili8960_set_brightness env s level).2.dev.brightness = level
          ∧ (ili8960_show_brightness (ili8960_set_brightness env s level).2).2.1
              = Nat.repr level ++ "\n")
      ∧ (env.spi_write s.trace [0x03, level] ≠ 0 →
          (ili8960_set_brightness env s level).1 ≠ 0
          ∧ (ili8960_set_brightness env s level).2.dev = s.dev
          ∧ (ili8960_show_brightness (ili8960_set_brightness env s level).2).2.1
              = Nat.repr s.dev.brightness ++ "\n") := by
  rw [set_brightness_eq env s level h]
  refine ⟨rfl, rfl, ?_, ?_⟩
  · intro h0
    simp [h0, ili8960_show_brightness]
  · intro h0
    simp [h0, ili8960_show_brightness]

theorem set_brightness_then_show_witness :
    ((ili8960_set_brightness envOk sOn (200 : Nat)).1 = 0
        ∧ (ili8960_set_brightness envOk sOn (200 : Nat)).2.dev.brightness = 200
        ∧ (ili8960_show_brightness (ili8960_set_brightness envOk sOn (200 : Nat)).2).2.1
            = Nat.repr 200 ++ "\n")
      ∧ ((ili8960_set_brightness envSpiFail sOn (200 : Nat)).1 ≠ 0
        ∧ (ili8960_set_brightness envSpiFail sOn (200 : Nat)).2.dev = sOn.dev
        ∧ (ili8960_show_brightness (ili8960_set_brightness envSpiFail sOn (200 : Nat)).2).2.1
            = Nat.repr sOn.dev.brightness ++ "\n") :=
  ⟨(set_brightness_then_show envOk sOn 200 (by decide)).2.2.1 rfl,
   (set_brightness_then_show envSpiFail sOn 200 (by decide)).2.2.2 (by decide)⟩

/-- C10: for every device state and every value `n` that `strict_strtoul`
leaves for the text written to the attribute: when `n > 255` the store returns
`-EINVAL` and the state (trace and cached brightness) is untouched; when
`n <= 255` the store is not rejected: the state is the one
`ili8960_set_brightness` leaves for `n`, whose only new event is the frame
(0x03, n), and the store returns `count` (for a `count` that fits `ssize_t`,
which is then not `-EINVAL`). -/
theorem store_brightness_range (env : Env) (s : State) (buf : String) (count n : Nat)
    (hparse : (env.strict_strtoul buf).2 = n) :
    (255 < n → ili8960_store_brightness env s buf count = (-EINVAL, s))
      ∧ (n ≤ 255 →
          (ili8960_store_brightness env s buf count).2
              = (ili8960_set_brightness env s (n : Int)).2
          ∧ (ili8960_store_brightness env s buf count).2.trace
              = s.trace ++ [Event.spi_write [0x03, n]]
          ∧ (ili8960_store_brightness env s buf count).1 = to_ssize_t count
          ∧ (count < 2 ^ 31 →
              (ili8960_store_brightness env s buf count).1 = (count : Int)
              ∧ (ili8960_store_brightness env s buf count).1 ≠ -EINVAL)) := by
  constructor
  · intro hn
    simp [ili8960_store_brightness, hparse, hn]
  · intro hn
    have hn' : ¬ (n > 255) := by omega
    simp only [ili8960_store_brightness, hparse, hn', if_false]
    refine ⟨trivial, ?_, trivial, ?_⟩
    · rw [set_brightness_eq env s n hn]
    · intro hc
      have hm : count % 2 ^ 32 = count := Nat.mod_eq_of_lt (by omega)
      have hs : to_ssize_t count = (count : Int) := by
        simp only [to_ssize_t, hm, hc, if_true]
      rw [hs]
      refine ⟨rfl, ?_⟩
      simp only [EINVAL]
      omega

theorem store_brightness_range_witness :
    ili8960_store_brightness envOk sOn "300" 3 = (-EINVAL, sOn)
      ∧ ((ili8960_store_brightness { envOk with strict_strtoul := fun _ => (0, 42) }
              sOn "42" 2).2.trace = sOn.trace ++ [Event.spi_write [0x03, 42]]
        ∧ (ili8960_store_brightness { envOk with strict_strtoul := fun _ => (0, 42) }
              sOn "42" 2).1 = ((2 : Nat) : Int)) :=
  ⟨(store_brightness_range envOk sOn "300" 3 300 rfl).1 (by decide),
   ((store_brightness_range { envOk with strict_strtoul := fun _ => (0, 42) }
        sOn "42" 2 42 rfl).2 (by decide)).2.1,
   (((store_brightness_range { envOk with strict_strtoul := fun _ => (0, 42) }
        sOn "42" 2 42 rfl).2 (by decide)).2.2.2 (by decide)).1⟩

/-! ## Suspend and resume -/

/-- C5: for every device state and every transport, when the instance is
powered, suspend adds the frame (0x05, 0xc6) and then the delay of 20, and the
following resume adds the delay of 20 and then the frame (0x05, 0xc7); when it
is off, neither adds any event.  Both leave the instance (the powered flag and
the cached brightness) as it was and return 0. -/
theorem suspend_resume_events (env : Env) (s : State) :
    (ili8960_suspend env s).2.trace
        = s.trace ++ (if s.dev.enabled
            then [Event.spi_write [0x05, 0xc6], Event.mdelay 20] else [])
      ∧ (ili8960_resume env (ili8960_suspend env s).2).2.trace
        = s.trace ++ (if s.dev.enabled
            then [Event.spi_write [0x05, 0xc6], Event.mdelay 20,
                  Event.mdelay 20, Event.spi_write [0x05, 0xc7]]
            else [])
      ∧ (ili8960_suspend env s).2.dev = s.dev
      ∧ (ili8960_resume env (ili8960_suspend env s).2).2.dev = s.dev
      ∧ (ili8960_suspend env s).1 = 0
      ∧ (ili8960_resume env (ili8960_suspend env s).2).1 = 0 := by
  cases h : s.dev.enabled
  · simp [ili8960_suspend, ili8960_resume, h]
  · simp [ili8960_suspend, ili8960_resume, h, programm_power_on, programm_power_off]

/-! ## Attach and detach -/

/-- C7, as stated, fails: with a transport on which every transfer fails, and
allocation, channel setup, lcd registration and attribute creation
succeeding, the probe returns 0 and issues no attribute removal, no lcd
unregistration and no free. -/
theorem probe_write_failure_not_reported :
    (∀ tr buf, envSpiFail.spi_write tr buf ≠ 0)
      ∧ envSpiFail.spi_setup [Event.kmalloc] = 0
      ∧ IS_ERR (envSpiFail.lcd_device_register
          [Event.kmalloc, Event.spi_setup 8 SPI_MODE_3]) = false
      ∧ envSpiFail.device_create_file
          [Event.kmalloc, Event.spi_setup 8 SPI_MODE_3, Event.lcd_device_register,
           Event.lcd_props_max_contrast 255] = 0
      ∧ (ili8960_probe envSpiFail []).ret = 0
      ∧ Event.device_remove_file ∉ (ili8960_probe envSpiFail []).trace
      ∧ Event.lcd_device_unregister ∉ (ili8960_probe envSpiFail []).trace
      ∧ Event.kfree ∉ (ili8960_probe envSpiFail []).trace := by
  refine ⟨?_, rfl, rfl, rfl, rfl, by decide, by decide, by decide⟩
  intro tr buf
  simp [envSpiFail]

/-- C7, amended: when allocation, channel setup, lcd registration and
attribute creation all succeed, the probe returns 0 whatever the transport
answers to the power-on write and to the initialization write; it adds exactly
the attach events below, among which there is no attribute removal, no lcd
unregistration and no free, and it leaves the instance as driver data with the
powered flag set. -/
theorem probe_discards_write_results (env : Env) (tr : List Event) (fresh : ili8960)
    (hk : env.kmalloc tr = some fresh)
    (hs : env.spi_setup (tr ++ [Event.kmalloc]) = 0)
    (hl : IS_ERR (env.lcd_device_register
            (tr ++ [Event.kmalloc, Event.spi_setup 8 SPI_MODE_3])) = false)
    (hf : env.device_create_file
            (tr ++ [Event.kmalloc, Event.spi_setup 8 SPI_MODE_3, Event.lcd_device_register,
                    Event.lcd_props_max_contrast 255]) = 0) :
    (ili8960_probe env tr).ret = 0
      ∧ (ili8960_probe env tr).trace
          = tr ++ [Event.kmalloc, Event.spi_setup 8 SPI_MODE_3,
              Event.lcd_device_register, Event.lcd_props_max_contrast 255,
              Event.device_create_file, Event.mdelay 20, Event.spi_write [0x05, 0xc7],
              Event.spi_set_drvdata true, Event.spi_write [0x13, 0x01]]
      ∧ (ili8960_probe env tr).drvdata
          = some { lcd := env.lcd_device_register
                            (tr ++ [Event.kmalloc, Event.spi_setup 8 SPI_MODE_3])
                   enabled := true
                   brightness := fresh.brightness } := by
  rw [probe_success env tr fresh hk hs hl hf]
  exact ⟨rfl, rfl, rfl⟩

theorem probe_discards_write_results_witness :
    (ili8960_probe envSpiFail []).ret = 0
      ∧ (ili8960_probe envSpiFail []).trace
          = [] ++ [Event.kmalloc, Event.spi_setup 8 SPI_MODE_3,
              Event.lcd_device_register, Event.lcd_props_max_contrast 255,
              Event.device_create_file, Event.mdelay 20, Event.spi_write [0x05, 0xc7],
              Event.spi_set_drvdata true, Event.spi_write [0x13, 0x01]]
      ∧ (ili8960_probe envSpiFail []).drvdata
          = some { lcd := envSpiFail.lcd_device_register
                            ([] ++ [Event.kmalloc, Event.spi_setup 8 SPI_MODE_3])
                   enabled := true
                   brightness := 0 } :=
  probe_discards_write_results envSpiFail [] { lcd := 0, enabled := false, brightness := 0 }
    rfl rfl rfl rfl

/-- C9: the probe returns 0 exactly when allocation, channel setup, lcd
registration and attribute creation succeed.  When it returns 0 it has added
exactly the attach events below: the frame (0x13, 0x01) occurs once, as the
last event, after the lcd registration and after the power-on sequence
(delay of 20, frame (0x05, 0xc7)).  When it returns anything else, at whatever
step it failed, the events it added contain no write and no delay. -/
theorem probe_init_write (env : Env) (tr : List Event) :
    ((ili8960_probe env tr).ret = 0 ↔
        ((env.kmalloc tr).isSome = true
          ∧ env.spi_setup (tr ++ [Event.kmalloc]) = 0
          ∧ IS_ERR (env.lcd_device_register
              (tr ++ [Event.kmalloc, Event.spi_setup 8 SPI_MODE_3])) = false
          ∧ env.device_create_file
              (tr ++ [Event.kmalloc, Event.spi_setup 8 SPI_MODE_3,
                      Event.lcd_device_register, Event.lcd_props_max_contrast 255]) = 0))
      ∧ ((ili8960_probe env tr).ret = 0 →
          (ili8960_probe env tr).trace
            = tr ++ [Event.kmalloc, Event.spi_setup 8 SPI_MODE_3,
                Event.lcd_device_register, Event.lcd_props_max_contrast 255,
                Event.device_create_file, Event.mdelay 20, Event.spi_write [0x05, 0xc7],
                Event.spi_set_drvdata true, Event.spi_write [0x13, 0x01]]
          ∧ ∃ added, (ili8960_probe env tr).trace = tr ++ added
              ∧ writes added = [[0x05, 0xc7], [0x13, 0x01]]
              ∧ (writes added).count [0x13, 0x01] = 1)
      ∧ ((ili8960_probe env tr).ret ≠ 0 →
          ∃ added, (ili8960_probe env tr).trace = tr ++ added
            ∧ writes added = [] ∧ delays added = []) := by
  rcases probe_cases env tr with ⟨h1, h2, h3, h4, hret, htr⟩ | ⟨hno, hret, hadd⟩
  · refine ⟨⟨fun _ => ⟨h1, h2, h3, h4⟩, fun _ => hret⟩, fun _ => ⟨htr, _, htr, ?_, ?_⟩,
      fun h => absurd hret h⟩
    · rfl
    · decide
  · exact ⟨⟨fun h => absurd h hret, fun h => absurd h hno⟩, fun h => absurd h hret,
      fun _ => hadd⟩

theorem probe_init_write_witness :
    ((ili8960_probe envOk []).trace
          = [] ++ [Event.kmalloc, Event.spi_setup 8 SPI_MODE_3,
              Event.lcd_device_register, Event.lcd_props_max_contrast 255,
              Event.device_create_file, Event.mdelay 20, Event.spi_write [0x05, 0xc7],
              Event.spi_set_drvdata true, Event.spi_write [0x13, 0x01]]
        ∧ ∃ added, (ili8960_probe envOk []).trace = [] ++ added
            ∧ writes added = [[0x05, 0xc7], [0x13, 0x01]]
            ∧ (writes added).count [0x13, 0x01] = 1)
      ∧ (∃ added, (ili8960_probe envFileFail []).trace = [] ++ added
            ∧ writes added = [] ∧ delays added = []) :=
  ⟨(probe_init_write envOk []).2.1 rfl,
   (probe_init_write envFileFail []).2.2 (by decide)⟩

/-- C8, as stated, fails: for a powered instance the remove callback hands no
frame to the transport, so no power-off write (0x05, 0xc6) precedes the
teardown. -/
theorem remove_powered_no_write :
    sOn.dev.enabled = true
      ∧ writes (ili8960_remove sOn).2 = []
      ∧ Event.spi_write [0x05, 0xc6] ∉ (ili8960_remove sOn).2 := by
  refine ⟨rfl, rfl, by decide⟩

/-- C8, amended: for every attached instance, powered or not, the remove
callback issues no write and no delay; it removes the attribute, unregisters
the lcd device, clears the driver data and frees the instance, in this order,
and returns 0. -/
theorem remove_events (s : State) :
    (ili8960_remove s).1 = 0
      ∧ (ili8960_remove s).2
          = s.trace ++ [Event.device_remove_file, Event.lcd_device_unregister,
              Event.spi_set_drvdata false, Event.kfree]
      ∧ writes (ili8960_remove s).2 = writes s.trace
      ∧ delays (ili8960_remove s).2 = delays s.trace := by
  refine ⟨rfl, rfl, ?_, ?_⟩
  · simp [ili8960_remove, writes_append, writes]
  · simp [ili8960_remove, delays_append, delays]

end Ili8960
